import Mathlib

/-!
# JNI_AudioProcessing.cpp: the binding shim of the AudioProcessing wrapper

A shallow embedding of the six exported entry points of
`webrtc-jni/src/main/cpp/src/JNI_AudioProcessing.cpp`.

* The managed side is a `World`: the wrapper's native handle field, its
  statistics object, the Java byte arrays (by reference), the native buffers
  the runtime allocated for array copies, the state of the engine library and
  the trace of every call that crossed a boundary (runtime or engine).
* The engine (webrtc::AudioProcessing and its builder) is an external
  library: it is a parameter `Engine σ`, a record of transition functions over
  an arbitrary engine state `σ`.
* Whether the runtime hands out an array as a private copy or as a direct
  view, or fails to hand out one at all (GetByteArrayElements returns NULL),
  is the runtime's choice: it is a parameter of each call, `none` for no
  view, `some true` for a copy, `some false` for a direct view. A pointer to a
  view is an `Option View`, `none` being NULL; the code passes it on unchecked,
  so the engine is handed the bytes behind it as an `Option` too.
* Pointers are natural numbers, `0` is `nullptr`.
* Calls on one wrapper are sequential, except in the last part, where the
  statements of `dispose` are atomic steps interleaved by a schedule.
-/

namespace WebrtcJni

/-! ## Values crossing the boundary -/

/-- The status of `rtc::RefCountInterface::Release` (rtc_base/ref_count.h). -/
inductive RefCountReleaseStatus
  | kDroppedLastRef
  | kOtherRefsRemained
  deriving DecidableEq

/-- The `mode` argument of `ReleaseByteArrayElements` (jni.h): `0`, `JNI_COMMIT`
or `JNI_ABORT`. -/
inductive ReleaseMode
  | copyBackAndFree
  | JNI_COMMIT
  | JNI_ABORT
  deriving DecidableEq

/-- The native `webrtc::StreamConfig`: sample rate and channel count of one
buffer. -/
structure StreamConfig where
  sample_rate_hz : Int
  num_channels : Nat
  deriving DecidableEq

/-- The managed `AudioProcessingStreamConfig` value object. -/
structure JavaStreamConfig where
  sampleRate : Int
  channels : Nat
  deriving DecidableEq

/-- Modelled from the spec: `jni::AudioProcessingStreamConfig::toNative`
(media/audio/AudioProcessingStreamConfig.h, not among the sources) translates
the stream configuration object: sample rate and channel count are carried
over. -/
def jni_AudioProcessingStreamConfig_toNative (c : JavaStreamConfig) : StreamConfig :=
  { sample_rate_hz := c.sampleRate, num_channels := c.channels }

/-- The native `webrtc::AudioProcessing::Config`: which sub-modules are
enabled, and their parameters. -/
structure Config where
  echo_canceller : Bool
  noise_suppression : Bool
  gain_controller : Bool
  parameters : List Int
  deriving DecidableEq

/-- The managed `AudioProcessingConfig` value object. -/
structure JavaConfig where
  echoCanceller : Bool
  noiseSuppression : Bool
  gainControl : Bool
  parameters : List Int
  deriving DecidableEq

/-- Modelled from the spec: `jni::AudioProcessingConfig::toNative`
(media/audio/AudioProcessingConfig.h, not among the sources) copies the fields
of the configuration object at call time. -/
def jni_AudioProcessingConfig_toNative (c : JavaConfig) : Config :=
  { echo_canceller := c.echoCanceller, noise_suppression := c.noiseSuppression,
    gain_controller := c.gainControl, parameters := c.parameters }

/-- A statistics snapshot (`webrtc::AudioProcessingStats`, and the managed
object with the same fields): the values of the engine's counters. -/
structure AudioProcessingStats where
  counters : List Int
  deriving DecidableEq

/-- A view of a Java byte array handed out by `GetByteArrayElements`: the
pointer the shim holds. `id` names the hand-out, `array` the array it was
requested for, `isCopy` whether it points to a private native copy (then the
bytes live in `World.native id`) or straight into the array. -/
structure View where
  id : Nat
  array : Nat
  isCopy : Bool
  deriving DecidableEq

/-- Every call that leaves the shim, in the order made. -/
inductive Event
  /-- the report of CHECK_HANDLE / CHECK_HANDLEV on a null handle -/
  | invalidHandle
  /-- `env->Throw(jni::JavaError(env, msg))` -/
  | throwJavaError (msg : String)
  /-- `RTC_LOG(WARNING) << msg` -/
  | logWarning (msg : String)
  /-- `SetHandle(env, caller, p)` -/
  | setHandle (p : Nat)
  /-- `env->GetByteArrayElements(array, _)`, handing out view `view` (`none`:
  the call returned NULL) -/
  | getByteArrayElements (array : Nat) (view : Option Nat) (isCopy : Bool)
  /-- `env->SetByteArrayRegion(array, start, len, buf)` -/
  | setByteArrayRegion (array start len : Nat)
  /-- `env->ReleaseByteArrayElements(array, view, mode)` (`none`: called on
  NULL) -/
  | releaseByteArrayElements (array : Nat) (view : Option Nat) (mode : ReleaseMode)
  /-- `webrtc::AudioProcessingBuilder().Create()`, returning `p` -/
  | engineCreate (p : Nat)
  /-- `apm->ApplyConfig(config)` -/
  | engineApplyConfig (apm : Nat)
  /-- `apm->ProcessStream(src, _, _, dest)` on the views `src` and `dest` -/
  | engineProcessStream (apm : Nat) (src dest : Option Nat)
  /-- `apm->ProcessReverseStream(src, _, _, dest)` -/
  | engineProcessReverseStream (apm : Nat) (src dest : Option Nat)
  /-- `apm->Release()`, returning `status` -/
  | engineRelease (apm : Nat) (status : RefCountReleaseStatus)
  /-- `apm->GetStatistics()` -/
  | engineGetStatistics (apm : Nat)
  deriving DecidableEq

/-- The engine library, as the shim sees it: each routine is a transition of
the library's state `σ`; the instance it is called on is the pointer argument.
`Create` returns the new instance (`0` when construction fails).  The
processing routines are given the bytes behind the source pointer and the
destination pointer (`none` for a null pointer) and return the status code and
the bytes they store through the destination pointer, as (offset, value) pairs
in the order stored. -/
structure Engine (σ : Type) where
  Create : σ → Nat × σ
  ApplyConfig : σ → Nat → Config → σ
  ProcessStream : σ → Nat → Option (List Int) → StreamConfig → StreamConfig →
    Option (List Int) → Int × List (Nat × Int) × σ
  ProcessReverseStream : σ → Nat → Option (List Int) → StreamConfig → StreamConfig →
    Option (List Int) → Int × List (Nat × Int) × σ
  Release : σ → Nat → RefCountReleaseStatus × σ
  GetStatistics : σ → Nat → AudioProcessingStats × σ

/-- The state on both sides of the boundary. -/
structure World (σ : Type) where
  /-- the native handle field of the caller-side wrapper, `0` when null -/
  handle : Nat
  /-- the caller-visible statistics object of the wrapper -/
  stats : AudioProcessingStats
  /-- the Java byte arrays, by reference -/
  heap : Nat → List Int
  /-- the private copies the runtime allocated, by view id -/
  native : Nat → List Int
  /-- the views handed out and not given back yet (pinned arrays and live
  copies), by view id -/
  live : Nat → Bool
  /-- the id of the next view the runtime hands out -/
  nextView : Nat
  /-- the state of the engine library -/
  engine : σ
  /-- the calls made so far -/
  trace : List Event

variable {σ : Type}

/-! ## Runtime and helper routines -/

/-- Modelled from the spec: `GetHandle<T>(env, caller)` (JavaUtils.h, not among
the sources) reads the handle stored on the caller-side wrapper. -/
def GetHandle (w : World σ) : Nat := w.handle

/-- Modelled from the spec: `SetHandle(env, caller, p)` (JavaUtils.h, not among
the sources) stores `p` as the handle of the caller-side wrapper. -/
def SetHandle (w : World σ) (p : Nat) : World σ :=
  { w with handle := p, trace := w.trace ++ [Event.setHandle p] }

/-- Modelled from the spec: the body CHECK_HANDLE and CHECK_HANDLEV (JavaUtils.h,
not among the sources) run when the handle is null: the invalid handle is
reported; the function then returns (CHECK_HANDLEV returns its second
argument), which the callers below spell out. -/
def reportInvalidHandle (w : World σ) : World σ :=
  { w with trace := w.trace ++ [Event.invalidHandle] }

/-- JNI `GetByteArrayElements(array, isCopy)`. `answer` is the runtime's:
`none` when it hands out no view (the call returns NULL and leaves the flag
behind `isCopy` alone), `some copy` when it hands out a new view of the array,
a private copy or a direct one; the private buffer starts as the array's
bytes. -/
def GetByteArrayElements (w : World σ) (array : Nat) (answer : Option Bool) :
    Option View × World σ :=
  match answer with
  | none =>
    (none, { w with trace := w.trace ++ [Event.getByteArrayElements array none false] })
  | some copy =>
    let v : View := { id := w.nextView, array := array, isCopy := copy }
    (some v, { w with
          native := if copy then Function.update w.native v.id (w.heap array) else w.native,
          live := Function.update w.live v.id true,
          nextView := w.nextView + 1,
          trace := w.trace ++ [Event.getByteArrayElements array (some v.id) copy] })

/-- The bytes behind a view pointer; nothing behind NULL. -/
def readView (w : World σ) : Option View → Option (List Int)
  | none => none
  | some v => some (if v.isCopy then w.native v.id else w.heap v.array)

/-- Stores through a pointer into a buffer, in order. The buffer keeps its
size: a store past its end, which has no defined behaviour in C, is dropped. -/
def storeBytes (mem : List Int) (stores : List (Nat × Int)) : List Int :=
  stores.foldl (fun m s => m.set s.1 s.2) mem

/-- Stores through a view pointer: into the private copy, or straight into the
array. A store through NULL, which has no defined behaviour in C, is
dropped. -/
def writeView (w : World σ) (p : Option View) (stores : List (Nat × Int)) : World σ :=
  match p with
  | none => w
  | some v =>
    if v.isCopy then
      { w with native := Function.update w.native v.id (storeBytes (w.native v.id) stores) }
    else
      { w with heap := Function.update w.heap v.array (storeBytes (w.heap v.array) stores) }

/-- JNI `GetArrayLength(array)`. -/
def GetArrayLength (w : World σ) (array : Nat) : Nat := (w.heap array).length

/-- JNI `SetByteArrayRegion(array, start, len, buf)`: copies `len` bytes of the
buffer into the array from index `start` on (nothing is copied from NULL). -/
def SetByteArrayRegion (w : World σ) (array start len : Nat) (buf : Option (List Int)) :
    World σ :=
  { w with
      heap :=
        match buf with
        | none => w.heap
        | some b =>
          Function.update w.heap array
            ((w.heap array).take start ++ b.take len ++ (w.heap array).drop (start + len)),
      trace := w.trace ++ [Event.setByteArrayRegion array start len] }

/-- JNI `ReleaseByteArrayElements(array, view, mode)`. For a private copy,
mode `0` copies back and frees the buffer, `JNI_COMMIT` copies back and keeps
the buffer, and `JNI_ABORT` frees the buffer without copying back; a direct
view is given back whatever the mode. Called on NULL it gives nothing back. -/
def ReleaseByteArrayElements (w : World σ) (array : Nat) (p : Option View)
    (mode : ReleaseMode) : World σ :=
  match p with
  | none => { w with trace := w.trace ++ [Event.releaseByteArrayElements array none mode] }
  | some v =>
    let w1 : World σ :=
      if v.isCopy && mode != ReleaseMode.JNI_ABORT then
        { w with heap := Function.update w.heap array (w.native v.id) }
      else w
    let w2 : World σ :=
      if v.isCopy && mode != ReleaseMode.JNI_COMMIT then
        { w1 with native := Function.update w1.native v.id [] }
      else w1
    let w3 : World σ :=
      if v.isCopy && mode == ReleaseMode.JNI_COMMIT then w2
      else { w2 with live := Function.update w2.live v.id false }
    { w3 with trace := w3.trace ++ [Event.releaseByteArrayElements array (some v.id) mode] }

/-- Modelled from the spec: `jni::AudioProcessing::updateStats(stats, env, caller)`
(media/audio/AudioProcessing.h, not among the sources) copies the fields of
the snapshot into the caller-visible statistics object. -/
def jni_AudioProcessing_updateStats (stats : AudioProcessingStats) (w : World σ) : World σ :=
  { w with stats := { counters := stats.counters } }

/-! ## The exported entry points -/

/-- The entry point `Java_dev_onvoid_webrtc_media_audio_AudioProcessing_applyConfig`. -/
def Java_dev_onvoid_webrtc_media_audio_AudioProcessing_applyConfig (E : Engine σ)
    (w : World σ) (config : JavaConfig) : World σ :=
  let apm := GetHandle w
  if apm = 0 then reportInvalidHandle w
  else
    { w with
        engine := E.ApplyConfig w.engine apm (jni_AudioProcessingConfig_toNative config),
        trace := w.trace ++ [Event.engineApplyConfig apm] }

/-- The entry point `Java_dev_onvoid_webrtc_media_audio_AudioProcessing_processStream`
(byte-array overload). `srcView` and `dstView` are the runtime's answers to the
two view requests. `isDstCopy` starts as `JNI_FALSE` and is what the runtime
set it to when a view was handed out. -/
def Java_dev_onvoid_webrtc_media_audio_AudioProcessing_processStream (E : Engine σ)
    (srcView dstView : Option Bool) (w : World σ) (src : Nat)
    (inputConfig outputConfig : JavaStreamConfig) (dest : Nat) : Int × World σ :=
  let apm := GetHandle w
  if apm = 0 then (0, reportInvalidHandle w)
  else
    let srcConfig := jni_AudioProcessingStreamConfig_toNative inputConfig
    let dstConfig := jni_AudioProcessingStreamConfig_toNative outputConfig
    let (srcPtr, w1) := GetByteArrayElements w src srcView
    let (dstPtr, w2) := GetByteArrayElements w1 dest dstView
    let isDstCopy :=
      match dstPtr with
      | some v => v.isCopy
      | none => false
    let r := E.ProcessStream w2.engine apm (readView w2 srcPtr) srcConfig dstConfig
      (readView w2 dstPtr)
    let result := r.1
    let w3 : World σ :=
      { writeView w2 dstPtr r.2.1 with
          engine := r.2.2,
          trace := w2.trace ++
            [Event.engineProcessStream apm (srcPtr.map View.id) (dstPtr.map View.id)] }
    let w4 :=
      if isDstCopy = true then
        let dstLength := GetArrayLength w3 dest
        SetByteArrayRegion w3 dest 0 dstLength (readView w3 dstPtr)
      else w3
    let w5 := ReleaseByteArrayElements w4 src srcPtr ReleaseMode.JNI_ABORT
    let w6 := ReleaseByteArrayElements w5 dest dstPtr ReleaseMode.JNI_ABORT
    (result, w6)

/-- The entry point
`Java_dev_onvoid_webrtc_media_audio_AudioProcessing_processReverseStream`
(byte-array overload). -/
def Java_dev_onvoid_webrtc_media_audio_AudioProcessing_processReverseStream (E : Engine σ)
    (srcView dstView : Option Bool) (w : World σ) (src : Nat)
    (inputConfig outputConfig : JavaStreamConfig) (dest : Nat) : Int × World σ :=
  let apm := GetHandle w
  if apm = 0 then (0, reportInvalidHandle w)
  else
    let srcConfig := jni_AudioProcessingStreamConfig_toNative inputConfig
    let dstConfig := jni_AudioProcessingStreamConfig_toNative outputConfig
    let (srcPtr, w1) := GetByteArrayElements w src srcView
    let (dstPtr, w2) := GetByteArrayElements w1 dest dstView
    let isDstCopy :=
      match dstPtr with
      | some v => v.isCopy
      | none => false
    let r := E.ProcessReverseStream w2.engine apm (readView w2 srcPtr) srcConfig dstConfig
      (readView w2 dstPtr)
    let result := r.1
    let w3 : World σ :=
      { writeView w2 dstPtr r.2.1 with
          engine := r.2.2,
          trace := w2.trace ++
            [Event.engineProcessReverseStream apm (srcPtr.map View.id) (dstPtr.map View.id)] }
    let w4 :=
      if isDstCopy = true then
        let dstLength := GetArrayLength w3 dest
        SetByteArrayRegion w3 dest 0 dstLength (readView w3 dstPtr)
      else w3
    let w5 := ReleaseByteArrayElements w4 src srcPtr ReleaseMode.JNI_ABORT
    let w6 := ReleaseByteArrayElements w5 dest dstPtr ReleaseMode.JNI_ABORT
    (result, w6)

/-- The entry point `Java_dev_onvoid_webrtc_media_audio_AudioProcessing_dispose`. -/
def Java_dev_onvoid_webrtc_media_audio_AudioProcessing_dispose (E : Engine σ)
    (w : World σ) : World σ :=
  let apm := GetHandle w
  if apm = 0 then reportInvalidHandle w
  else
    let r := E.Release w.engine apm
    let status := r.1
    let w1 : World σ :=
      { w with engine := r.2, trace := w.trace ++ [Event.engineRelease apm status] }
    let w2 : World σ :=
      if status ≠ RefCountReleaseStatus.kDroppedLastRef then
        { w1 with trace := w1.trace ++ [Event.logWarning
            "Native object was not deleted. A reference is still around somewhere."] }
      else w1
    SetHandle w2 0

/-- The entry point `Java_dev_onvoid_webrtc_media_audio_AudioProcessing_initialize`.
The `scoped_refptr` returned by the builder holds the one reference to the new
instance; `apm.release()` hands the pointer over without dropping it, and the
destructor of a null `scoped_refptr` releases nothing. -/
def Java_dev_onvoid_webrtc_media_audio_AudioProcessing_initialize (E : Engine σ)
    (w : World σ) : World σ :=
  let r := E.Create w.engine
  let apm := r.1
  let w1 : World σ := { w with engine := r.2, trace := w.trace ++ [Event.engineCreate apm] }
  if apm = 0 then
    { w1 with trace := w1.trace ++ [Event.throwJavaError "Create AudioProcessing failed"] }
  else
    SetHandle w1 apm

/-- The entry point `Java_dev_onvoid_webrtc_media_audio_AudioProcessing_updateStats`. -/
def Java_dev_onvoid_webrtc_media_audio_AudioProcessing_updateStats (E : Engine σ)
    (w : World σ) : World σ :=
  let apm := GetHandle w
  if apm = 0 then reportInvalidHandle w
  else
    let r := E.GetStatistics w.engine apm
    let w1 : World σ :=
      { w with engine := r.2, trace := w.trace ++ [Event.engineGetStatistics apm] }
    jni_AudioProcessing_updateStats r.1 w1

/-! ## Reading a trace -/

/-- The events a call added: what the trace after the call holds beyond the
trace before it. -/
def newEvents (w w' : World σ) : List Event := w'.trace.drop w.trace.length

/-- Whether an event is a call into the engine library. -/
def Event.isEngineCall : Event → Bool
  | Event.engineCreate _ => true
  | Event.engineApplyConfig _ => true
  | Event.engineProcessStream _ _ _ => true
  | Event.engineProcessReverseStream _ _ _ => true
  | Event.engineRelease _ _ => true
  | Event.engineGetStatistics _ => true
  | _ => false

/-- The views obtained from the runtime, in order (a request answered with
NULL obtains none). -/
def obtainedViews (t : List Event) : List Nat :=
  t.filterMap fun e =>
    match e with
    | Event.getByteArrayElements _ (some v) _ => some v
    | _ => none

/-- The instances `Release` was called on, in order. -/
def releasedInstances (t : List Event) : List Nat :=
  t.filterMap fun e =>
    match e with
    | Event.engineRelease p _ => some p
    | _ => none

/-- The guarded no-op: nothing changes on either side of the boundary, the
handle is (still) null, no view is handed out, and the only event is the report
of the invalid handle. -/
def GuardedNoop (w w' : World σ) : Prop :=
  w'.handle = 0 ∧ w'.stats = w.stats ∧ w'.heap = w.heap ∧ w'.native = w.native ∧
    w'.live = w.live ∧ w'.nextView = w.nextView ∧ w'.engine = w.engine ∧
    w'.trace = w.trace ++ [Event.invalidHandle]

/-! ## Concrete inputs -/

/-- A toy engine over a counter: instances are numbered from `1`; processing
returns the number of source bytes (none behind NULL) as its status and stores
`7` in the first two bytes behind the destination pointer; `Release` reports
the last reference dropped exactly for instance `1`. -/
def toyEngine : Engine Nat where
  Create := fun s => (s + 1, s + 1)
  ApplyConfig := fun s _ _ => s
  ProcessStream := fun s _ src _ _ _ => ((src.getD []).length, [(0, 7), (1, 7)], s + 1)
  ProcessReverseStream := fun s _ src _ _ _ =>
    (-((src.getD []).length : Int), [(0, 7), (1, 7)], s + 1)
  Release := fun s p =>
    (if p = 1 then RefCountReleaseStatus.kDroppedLastRef
      else RefCountReleaseStatus.kOtherRefsRemained, s)
  GetStatistics := fun s _ => ({ counters := [s] }, s)

/-- An engine whose state tallies the references given back: `Release` adds
one to it, reporting the last reference dropped exactly for instance `1`. -/
def releaseTallyEngine : Engine Nat where
  Create := fun s => (s + 1, s)
  ApplyConfig := fun s _ _ => s
  ProcessStream := fun s _ _ _ _ _ => (0, [], s)
  ProcessReverseStream := fun s _ _ _ _ _ => (0, [], s)
  Release := fun s p =>
    (if p = 1 then RefCountReleaseStatus.kDroppedLastRef
      else RefCountReleaseStatus.kOtherRefsRemained, s + 1)
  GetStatistics := fun s _ => ({ counters := [s] }, s)

/-- A wrapper that was never initialized: null handle, array `1` holds four
bytes and array `2` six, nothing has happened yet. -/
def freshWorld : World Nat where
  handle := 0
  stats := { counters := [] }
  heap := fun a => if a = 1 then [1, 2, 3, 4] else if a = 2 then [0, 0, 0, 0, 0, 9] else []
  native := fun _ => []
  live := fun _ => false
  nextView := 0
  engine := 0
  trace := []

/-- The same wrapper holding instance `1`. -/
def liveWorld : World Nat := { freshWorld with handle := 1, engine := 1 }

/-- A mono stream at 16 kHz. -/
def mono16k : JavaStreamConfig := { sampleRate := 16000, channels := 1 }

/-! ## Sequences of lifecycle calls on one wrapper -/

/-- A lifecycle call on the wrapper. -/
inductive LifecycleCall
  | callInitialize
  | callDispose
  deriving DecidableEq

/-- One lifecycle call. -/
def lifecycleStep (E : Engine σ) (w : World σ) : LifecycleCall → World σ
  | LifecycleCall.callInitialize =>
    Java_dev_onvoid_webrtc_media_audio_AudioProcessing_initialize E w
  | LifecycleCall.callDispose =>
    Java_dev_onvoid_webrtc_media_audio_AudioProcessing_dispose E w

/-- A sequence of lifecycle calls, each issued after the previous one
returned. -/
def lifecycleRun (E : Engine σ) (w : World σ) : List LifecycleCall → World σ
  | [] => w
  | c :: cs => lifecycleRun E (lifecycleStep E w c) cs

/-- Whether every `callInitialize` of the sequence is issued while the handle
is null. -/
def initializeOnlyWhenNull (E : Engine σ) (w : World σ) : List LifecycleCall → Bool
  | [] => true
  | c :: cs =>
    (c != LifecycleCall.callInitialize || w.handle == 0) &&
      initializeOnlyWhenNull E (lifecycleStep E w c) cs

/-- The effect of one event on the instances whose reference the shim holds: a
successful `Create` adds the instance, a `Release` takes it off. -/
def outstandingStep (acc : List Nat) : Event → List Nat
  | Event.engineCreate p => if p = 0 then acc else p :: acc
  | Event.engineRelease p _ => acc.erase p
  | _ => acc

/-- The instances the builder returned to the shim whose reference the shim has
not given back through `Release` yet, read off the trace. -/
def outstanding (t : List Event) : List Nat :=
  t.foldl outstandingStep []

/-- The shim holds exactly the reference behind the handle: nothing when the
handle is null, else the one instance the handle refers to. -/
def Balanced (w : World σ) : Prop :=
  outstanding w.trace = if w.handle = 0 then [] else [w.handle]

/-! ## Concurrent dispose calls

`dispose` is three calls in a row: `GetHandle` (with the null check),
`apm->Release()` (with the warning) and `SetHandle(nullptr)`. The shim takes no
lock, so between any two of them another thread may run. Each of the three is
one atomic step here; a schedule says which thread moves next. -/

/-- Where a dispose call stands. -/
inductive DisposePc
  /-- called, handle not read yet -/
  | entry
  /-- handle read and found non-null: `apm` is the local pointer -/
  | checked (apm : Nat)
  /-- `apm->Release()` done, handle not cleared yet -/
  | released (apm : Nat)
  /-- returned to the caller -/
  | returned
  deriving DecidableEq

/-- Whether the call is between its handle read and its return. -/
def DisposePc.isMid : DisposePc → Bool
  | DisposePc.checked _ => true
  | DisposePc.released _ => true
  | _ => false

/-- One atomic step of a dispose call: the statements of
`Java_dev_onvoid_webrtc_media_audio_AudioProcessing_dispose`, cut after the
handle check and after the release. -/
def disposeStep (E : Engine σ) (w : World σ) : DisposePc → World σ × DisposePc
  | DisposePc.entry =>
    let apm := GetHandle w
    if apm = 0 then (reportInvalidHandle w, DisposePc.returned)
    else (w, DisposePc.checked apm)
  | DisposePc.checked apm =>
    let r := E.Release w.engine apm
    let status := r.1
    let w1 : World σ :=
      { w with engine := r.2, trace := w.trace ++ [Event.engineRelease apm status] }
    let w2 : World σ :=
      if status ≠ RefCountReleaseStatus.kDroppedLastRef then
        { w1 with trace := w1.trace ++ [Event.logWarning
            "Native object was not deleted. A reference is still around somewhere."] }
      else w1
    (w2, DisposePc.released apm)
  | DisposePc.released _ => (SetHandle w 0, DisposePc.returned)
  | DisposePc.returned => (w, DisposePc.returned)

/-- Modelled from the spec: the reference-counted lifetime of engine instances
(`rtc::RefCountInterface`, part of the engine, not among the sources). `refs p`
is the number of references to instance `p`; an instance whose count is `0` is
freed. -/
structure RefCounted where
  refs : Nat → Nat
  next : Nat

/-- Modelled from the spec: an engine with reference-counted instances.
`Release` takes one reference off the instance and reports
`kDroppedLastRef` exactly when that was the last one (the instance is freed
then). What a freed instance answers is not defined; it is modelled as
"other references remained" and the count stays at zero. The builder hands out
a new instance holding one reference. The other routines leave the counts
alone. -/
def refCountedEngine : Engine RefCounted where
  Create := fun s =>
    (s.next + 1, { refs := Function.update s.refs (s.next + 1) 1, next := s.next + 1 })
  ApplyConfig := fun s _ _ => s
  ProcessStream := fun s _ _ _ _ _ => (0, [], s)
  ProcessReverseStream := fun s _ _ _ _ _ => (0, [], s)
  Release := fun s p =>
    (if s.refs p = 1 then RefCountReleaseStatus.kDroppedLastRef
      else RefCountReleaseStatus.kOtherRefsRemained,
     { s with refs := Function.update s.refs p (s.refs p - 1) })
  GetStatistics := fun s _ => ({ counters := [] }, s)

/-- The wrapper, the dispose calls in flight on it, and an external holder of a
reference. `releasedFreed` counts the `Release` calls a dispose call made on an
instance that was already freed. -/
structure RaceState where
  world : World RefCounted
  pcs : List DisposePc
  holder : Option Nat
  releasedFreed : Nat

/-- Who moves next. -/
inductive Actor
  /-- dispose call number `i` takes its next step -/
  | disposeCall (i : Nat)
  /-- the external holder gives up its reference -/
  | holderRelease
  deriving DecidableEq

/-- Whether every dispose call but number `i` is outside its handle-read to
return span. -/
def othersIdle (pcs : List DisposePc) (i : Nat) : Bool :=
  (pcs.eraseIdx i).all fun pc => !pc.isMid

/-- One step of the race. With `exclusive` set, dispose calls on the wrapper
exclude one another: a dispose call moves only while no other one is between
its handle read and its return (a step that is not allowed is not taken).
Without it any call may move at any time, as in the shim. -/
def raceStep (exclusive : Bool) (s : RaceState) : Actor → RaceState
  | Actor.holderRelease =>
    match s.holder with
    | none => s
    | some p =>
      { s with
          world := { s.world with engine := (refCountedEngine.Release s.world.engine p).2 },
          holder := none }
  | Actor.disposeCall i =>
    match s.pcs[i]? with
    | none => s
    | some pc =>
      if exclusive && !othersIdle s.pcs i then s
      else
        let r := disposeStep refCountedEngine s.world pc
        { s with
            world := r.1,
            pcs := s.pcs.set i r.2,
            releasedFreed := s.releasedFreed +
              (match pc with
                | DisposePc.checked apm => if s.world.engine.refs apm = 0 then 1 else 0
                | _ => 0) }

/-- A schedule, run from a state. -/
def raceRun (exclusive : Bool) (s : RaceState) : List Actor → RaceState
  | [] => s
  | a :: rest => raceRun exclusive (raceStep exclusive s a) rest

/-- The start of a race: the wrapper holds instance `1` with its one reference,
`n` dispose calls have been issued, and (with `held`) an external holder has a
reference of its own to the instance. -/
def raceInit (n : Nat) (held : Bool) : RaceState where
  world :=
    { handle := 1
      stats := { counters := [] }
      heap := fun _ => []
      native := fun _ => []
      live := fun _ => false
      nextView := 0
      engine := { refs := fun p => if p = 1 then (if held then 2 else 1) else 0, next := 1 }
      trace := [] }
  pcs := List.replicate n DisposePc.entry
  holder := if held then some 1 else none
  releasedFreed := 0

/-- The dispose calls that saw "last reference dropped". -/
def droppedLastCount (t : List Event) : Nat :=
  t.countP fun e =>
    match e with
    | Event.engineRelease _ RefCountReleaseStatus.kDroppedLastRef => true
    | _ => false

/-- No double free: at most one dispose call saw "last reference dropped", and
no dispose call called `Release` on a freed instance. -/
def RaceSafe (s : RaceState) : Prop :=
  droppedLastCount s.world.trace ≤ 1 ∧ s.releasedFreed = 0

/-- The references the external holder still has: one or none. -/
def RaceState.holderRefs (s : RaceState) : Nat :=
  match s.holder with
  | none => 0
  | some _ => 1

/-- What holds at every point of a race in which dispose calls exclude one
another: a call that has read the handle holds instance `1`, which still has
the wrapper's reference; a call that has released has taken off exactly that
reference; and while no call is under way the instance has the wrapper's
reference exactly when the handle is non-null. -/
def RaceInv (s : RaceState) : Prop :=
  s.releasedFreed = 0 ∧ (s.holder = none ∨ s.holder = some 1) ∧
  (∀ a, DisposePc.checked a ∈ s.pcs →
    a = 1 ∧ s.world.handle = 1 ∧ releasedInstances s.world.trace = [] ∧
      s.world.engine.refs 1 = 1 + s.holderRefs) ∧
  (∀ a, DisposePc.released a ∈ s.pcs →
    s.world.handle = 1 ∧ (releasedInstances s.world.trace).length = 1 ∧
      s.world.engine.refs 1 = s.holderRefs) ∧
  ((∀ pc ∈ s.pcs, pc.isMid = false) →
    (s.world.handle = 1 ∧ releasedInstances s.world.trace = [] ∧
        s.world.engine.refs 1 = 1 + s.holderRefs) ∨
      (s.world.handle = 0 ∧ (releasedInstances s.world.trace).length ≤ 1 ∧
        s.world.engine.refs 1 = s.holderRefs))

/-! ## Lemmas on the runtime routines -/

theorem storeBytes_length (mem : List Int) (stores : List (Nat × Int)) :
    (storeBytes mem stores).length = mem.length := by
  unfold storeBytes
  induction stores generalizing mem with
  | nil => rfl
  | cons s rest ih => simp [List.foldl_cons, ih]

theorem storeBytes_getElem?_of_not_stored (mem : List Int) (stores : List (Nat × Int))
    (i : Nat) (h : ∀ s ∈ stores, s.1 ≠ i) :
    (storeBytes mem stores)[i]? = mem[i]? := by
  unfold storeBytes
  induction stores generalizing mem with
  | nil => rfl
  | cons s rest ih =>
    have hs : s.1 ≠ i := h s (List.mem_cons_self _ _)
    have hrest : ∀ s ∈ rest, s.1 ≠ i := fun x hx => h x (List.mem_cons_of_mem _ hx)
    simp only [List.foldl_cons]
    rw [ih _ hrest]
    exact List.getElem?_set_ne hs

theorem newEvents_append (w w' : World σ) (t : List Event) (h : w'.trace = w.trace ++ t) :
    newEvents w w' = t := by
  simp [newEvents, h]


theorem storeBytes_take (mem : List Int) (stores : List (Nat × Int)) :
    (storeBytes mem stores).take mem.length = storeBytes mem stores := by
  apply List.take_of_length_le
  rw [storeBytes_length]

/-! ## What one processing call does, field by field -/

theorem processStream_trace (E : Engine σ) (srcCopy dstCopy : Bool) (w : World σ)
    (src dest : Nat) (inputConfig outputConfig : JavaStreamConfig) (h : w.handle ≠ 0) :
    (Java_dev_onvoid_webrtc_media_audio_AudioProcessing_processStream E (some srcCopy)
        (some dstCopy) w src
        inputConfig outputConfig dest).2.trace =
      w.trace ++ ([Event.getByteArrayElements src (some w.nextView) srcCopy,
        Event.getByteArrayElements dest (some (w.nextView + 1)) dstCopy,
        Event.engineProcessStream w.handle (some w.nextView) (some (w.nextView + 1))] ++
        (if dstCopy then [Event.setByteArrayRegion dest 0 (w.heap dest).length] else []) ++
        [Event.releaseByteArrayElements src (some w.nextView) ReleaseMode.JNI_ABORT,
         Event.releaseByteArrayElements dest (some (w.nextView + 1)) ReleaseMode.JNI_ABORT]) := by
  cases srcCopy <;> cases dstCopy <;>
    simp [Java_dev_onvoid_webrtc_media_audio_AudioProcessing_processStream, GetHandle, h,
      GetByteArrayElements, readView, writeView, ReleaseByteArrayElements, SetByteArrayRegion,
      GetArrayLength, Function.update, storeBytes_length, storeBytes_take]

theorem processReverseStream_trace (E : Engine σ) (srcCopy dstCopy : Bool) (w : World σ)
    (src dest : Nat) (inputConfig outputConfig : JavaStreamConfig) (h : w.handle ≠ 0) :
    (Java_dev_onvoid_webrtc_media_audio_AudioProcessing_processReverseStream E (some srcCopy)
        (some dstCopy)
        w src inputConfig outputConfig dest).2.trace =
      w.trace ++ ([Event.getByteArrayElements src (some w.nextView) srcCopy,
        Event.getByteArrayElements dest (some (w.nextView + 1)) dstCopy,
        Event.engineProcessReverseStream w.handle (some w.nextView) (some (w.nextView + 1))] ++
        (if dstCopy then [Event.setByteArrayRegion dest 0 (w.heap dest).length] else []) ++
        [Event.releaseByteArrayElements src (some w.nextView) ReleaseMode.JNI_ABORT,
         Event.releaseByteArrayElements dest (some (w.nextView + 1)) ReleaseMode.JNI_ABORT]) := by
  cases srcCopy <;> cases dstCopy <;>
    simp [Java_dev_onvoid_webrtc_media_audio_AudioProcessing_processReverseStream, GetHandle, h,
      GetByteArrayElements, readView, writeView, ReleaseByteArrayElements, SetByteArrayRegion,
      GetArrayLength, Function.update, storeBytes_length, storeBytes_take]

theorem processStream_heap (E : Engine σ) (srcCopy dstCopy : Bool) (w : World σ)
    (src dest : Nat) (inputConfig outputConfig : JavaStreamConfig) (h : w.handle ≠ 0) :
    (Java_dev_onvoid_webrtc_media_audio_AudioProcessing_processStream E (some srcCopy)
        (some dstCopy) w src
        inputConfig outputConfig dest).2.heap =
      Function.update w.heap dest (storeBytes (w.heap dest)
        (E.ProcessStream w.engine w.handle (some (w.heap src))
          (jni_AudioProcessingStreamConfig_toNative inputConfig)
          (jni_AudioProcessingStreamConfig_toNative outputConfig) (some (w.heap dest))).2.1) := by
  cases srcCopy <;> cases dstCopy <;>
    simp [Java_dev_onvoid_webrtc_media_audio_AudioProcessing_processStream, GetHandle, h,
      GetByteArrayElements, readView, writeView, ReleaseByteArrayElements, SetByteArrayRegion,
      GetArrayLength, Function.update, storeBytes_length, storeBytes_take]

theorem processReverseStream_heap (E : Engine σ) (srcCopy dstCopy : Bool) (w : World σ)
    (src dest : Nat) (inputConfig outputConfig : JavaStreamConfig) (h : w.handle ≠ 0) :
    (Java_dev_onvoid_webrtc_media_audio_AudioProcessing_processReverseStream E (some srcCopy)
        (some dstCopy)
        w src inputConfig outputConfig dest).2.heap =
      Function.update w.heap dest (storeBytes (w.heap dest)
        (E.ProcessReverseStream w.engine w.handle (some (w.heap src))
          (jni_AudioProcessingStreamConfig_toNative inputConfig)
          (jni_AudioProcessingStreamConfig_toNative outputConfig) (some (w.heap dest))).2.1) := by
  cases srcCopy <;> cases dstCopy <;>
    simp [Java_dev_onvoid_webrtc_media_audio_AudioProcessing_processReverseStream, GetHandle, h,
      GetByteArrayElements, readView, writeView, ReleaseByteArrayElements, SetByteArrayRegion,
      GetArrayLength, Function.update, storeBytes_length, storeBytes_take]

theorem processStream_status (E : Engine σ) (srcCopy dstCopy : Bool) (w : World σ)
    (src dest : Nat) (inputConfig outputConfig : JavaStreamConfig) (h : w.handle ≠ 0) :
    (Java_dev_onvoid_webrtc_media_audio_AudioProcessing_processStream E (some srcCopy)
        (some dstCopy) w src
        inputConfig outputConfig dest).1 =
      (E.ProcessStream w.engine w.handle (some (w.heap src))
        (jni_AudioProcessingStreamConfig_toNative inputConfig)
        (jni_AudioProcessingStreamConfig_toNative outputConfig) (some (w.heap dest))).1 := by
  cases srcCopy <;> cases dstCopy <;>
    simp [Java_dev_onvoid_webrtc_media_audio_AudioProcessing_processStream, GetHandle, h,
      GetByteArrayElements, readView, Function.update]

theorem processReverseStream_status (E : Engine σ) (srcCopy dstCopy : Bool) (w : World σ)
    (src dest : Nat) (inputConfig outputConfig : JavaStreamConfig) (h : w.handle ≠ 0) :
    (Java_dev_onvoid_webrtc_media_audio_AudioProcessing_processReverseStream E (some srcCopy)
        (some dstCopy)
        w src inputConfig outputConfig dest).1 =
      (E.ProcessReverseStream w.engine w.handle (some (w.heap src))
        (jni_AudioProcessingStreamConfig_toNative inputConfig)
        (jni_AudioProcessingStreamConfig_toNative outputConfig) (some (w.heap dest))).1 := by
  cases srcCopy <;> cases dstCopy <;>
    simp [Java_dev_onvoid_webrtc_media_audio_AudioProcessing_processReverseStream, GetHandle, h,
      GetByteArrayElements, readView, Function.update]

theorem processStream_engine (E : Engine σ) (srcCopy dstCopy : Bool) (w : World σ)
    (src dest : Nat) (inputConfig outputConfig : JavaStreamConfig) (h : w.handle ≠ 0) :
    (Java_dev_onvoid_webrtc_media_audio_AudioProcessing_processStream E (some srcCopy)
        (some dstCopy) w src
        inputConfig outputConfig dest).2.engine =
      (E.ProcessStream w.engine w.handle (some (w.heap src))
        (jni_AudioProcessingStreamConfig_toNative inputConfig)
        (jni_AudioProcessingStreamConfig_toNative outputConfig) (some (w.heap dest))).2.2 ∧
    (Java_dev_onvoid_webrtc_media_audio_AudioProcessing_processStream E (some srcCopy)
        (some dstCopy) w src
        inputConfig outputConfig dest).2.handle = w.handle := by
  cases srcCopy <;> cases dstCopy <;>
    simp [Java_dev_onvoid_webrtc_media_audio_AudioProcessing_processStream, GetHandle, h,
      GetByteArrayElements, readView, writeView, ReleaseByteArrayElements, SetByteArrayRegion,
      GetArrayLength, Function.update]

theorem processReverseStream_engine (E : Engine σ) (srcCopy dstCopy : Bool) (w : World σ)
    (src dest : Nat) (inputConfig outputConfig : JavaStreamConfig) (h : w.handle ≠ 0) :
    (Java_dev_onvoid_webrtc_media_audio_AudioProcessing_processReverseStream E (some srcCopy)
        (some dstCopy)
        w src inputConfig outputConfig dest).2.engine =
      (E.ProcessReverseStream w.engine w.handle (some (w.heap src))
        (jni_AudioProcessingStreamConfig_toNative inputConfig)
        (jni_AudioProcessingStreamConfig_toNative outputConfig) (some (w.heap dest))).2.2 ∧
    (Java_dev_onvoid_webrtc_media_audio_AudioProcessing_processReverseStream E (some srcCopy)
        (some dstCopy)
        w src inputConfig outputConfig dest).2.handle = w.handle := by
  cases srcCopy <;> cases dstCopy <;>
    simp [Java_dev_onvoid_webrtc_media_audio_AudioProcessing_processReverseStream, GetHandle, h,
      GetByteArrayElements, readView, writeView, ReleaseByteArrayElements, SetByteArrayRegion,
      GetArrayLength, Function.update]

theorem process_status_any (E : Engine σ) (srcView dstView : Option Bool) (w : World σ)
    (src dest : Nat) (inputConfig outputConfig : JavaStreamConfig) (h : w.handle ≠ 0) :
    (Java_dev_onvoid_webrtc_media_audio_AudioProcessing_processStream E srcView dstView w src
        inputConfig outputConfig dest).1 =
      (E.ProcessStream w.engine w.handle (srcView.map fun _ => w.heap src)
        (jni_AudioProcessingStreamConfig_toNative inputConfig)
        (jni_AudioProcessingStreamConfig_toNative outputConfig)
        (dstView.map fun _ => w.heap dest)).1 ∧
    (Java_dev_onvoid_webrtc_media_audio_AudioProcessing_processReverseStream E srcView dstView
        w src inputConfig outputConfig dest).1 =
      (E.ProcessReverseStream w.engine w.handle (srcView.map fun _ => w.heap src)
        (jni_AudioProcessingStreamConfig_toNative inputConfig)
        (jni_AudioProcessingStreamConfig_toNative outputConfig)
        (dstView.map fun _ => w.heap dest)).1 := by
  rcases srcView with _ | srcCopy <;> rcases dstView with _ | dstCopy <;>
    (try cases srcCopy) <;> (try cases dstCopy) <;>
    simp [Java_dev_onvoid_webrtc_media_audio_AudioProcessing_processStream,
      Java_dev_onvoid_webrtc_media_audio_AudioProcessing_processReverseStream, GetHandle, h,
      GetByteArrayElements, readView, Function.update]

theorem guardedNoop_report (w : World σ) (h : w.handle = 0) :
    GuardedNoop w (reportInvalidHandle w) := by
  simp [GuardedNoop, reportInvalidHandle, h]

/-! ## The status code -/

/-- C1: on a wrapper with a non-null handle, `processStream` returns exactly
the status the engine's `ProcessStream` returned for that call, and
`processReverseStream` exactly the status of `ProcessReverseStream`, for every
source and destination array and every pair of stream configurations, whether
the runtime copied the arrays or handed out direct views. The status is passed
on as well when the runtime hands out no view for an array: the engine is then
called on the null pointer, and what it returns is returned. -/
theorem process_returns_engine_status (E : Engine σ) (srcCopy dstCopy : Bool) (w : World σ)
    (src dest : Nat) (inputConfig outputConfig : JavaStreamConfig) (h : w.handle ≠ 0) :
    (Java_dev_onvoid_webrtc_media_audio_AudioProcessing_processStream E (some srcCopy)
        (some dstCopy) w src
        inputConfig outputConfig dest).1 =
      (E.ProcessStream w.engine w.handle (some (w.heap src))
        (jni_AudioProcessingStreamConfig_toNative inputConfig)
        (jni_AudioProcessingStreamConfig_toNative outputConfig) (some (w.heap dest))).1 ∧
    (Java_dev_onvoid_webrtc_media_audio_AudioProcessing_processReverseStream E (some srcCopy)
        (some dstCopy)
        w src inputConfig outputConfig dest).1 =
      (E.ProcessReverseStream w.engine w.handle (some (w.heap src))
        (jni_AudioProcessingStreamConfig_toNative inputConfig)
        (jni_AudioProcessingStreamConfig_toNative outputConfig) (some (w.heap dest))).1 ∧
    ∀ srcView dstView : Option Bool,
      (Java_dev_onvoid_webrtc_media_audio_AudioProcessing_processStream E srcView dstView w
          src inputConfig outputConfig dest).1 =
        (E.ProcessStream w.engine w.handle (srcView.map fun _ => w.heap src)
          (jni_AudioProcessingStreamConfig_toNative inputConfig)
          (jni_AudioProcessingStreamConfig_toNative outputConfig)
          (dstView.map fun _ => w.heap dest)).1 ∧
      (Java_dev_onvoid_webrtc_media_audio_AudioProcessing_processReverseStream E srcView
          dstView w src inputConfig outputConfig dest).1 =
        (E.ProcessReverseStream w.engine w.handle (srcView.map fun _ => w.heap src)
          (jni_AudioProcessingStreamConfig_toNative inputConfig)
          (jni_AudioProcessingStreamConfig_toNative outputConfig)
          (dstView.map fun _ => w.heap dest)).1 :=
  ⟨processStream_status E srcCopy dstCopy w src dest inputConfig outputConfig h,
   processReverseStream_status E srcCopy dstCopy w src dest inputConfig outputConfig h,
   fun srcView dstView =>
     process_status_any E srcView dstView w src dest inputConfig outputConfig h⟩

/-- C1 at a concrete input: the toy engine answers with the source length (4,
and -4 on the reverse path), and that is what the calls return, with a copied
destination. -/
theorem process_returns_engine_status_witness :
    liveWorld.handle ≠ 0 ∧
    (Java_dev_onvoid_webrtc_media_audio_AudioProcessing_processStream toyEngine (some false)
        (some true)
        liveWorld 1 mono16k mono16k 2).1 = 4 ∧
    (Java_dev_onvoid_webrtc_media_audio_AudioProcessing_processReverseStream toyEngine (some false)
        (some true) liveWorld 1 mono16k mono16k 2).1 = -4 :=
  ⟨by decide,
   (process_returns_engine_status toyEngine false true liveWorld 1 2 mono16k mono16k
     (by decide)).1,
   (process_returns_engine_status toyEngine false true liveWorld 1 2 mono16k mono16k
     (by decide)).2.1⟩

/-! ## The null handle -/

/-- C2: with a null handle each of `applyConfig`, `processStream`,
`processReverseStream`, `dispose` and `updateStats` is a guarded no-op: the
only event is the report of the invalid handle (so no engine call and no
buffer view), the handle stays null, and the arrays, the native buffers, the
views handed out, the statistics object and the engine are as before; the two
processing calls return `0`. This holds whatever the runtime would answer to a
view request. -/
theorem null_handle_guarded_noop (E : Engine σ) (srcView dstView : Option Bool) (w : World σ)
    (config : JavaConfig) (src dest : Nat) (inputConfig outputConfig : JavaStreamConfig)
    (h : w.handle = 0) :
    GuardedNoop w (Java_dev_onvoid_webrtc_media_audio_AudioProcessing_applyConfig E w config) ∧
    ((Java_dev_onvoid_webrtc_media_audio_AudioProcessing_processStream E srcView dstView w src
        inputConfig outputConfig dest).1 = 0 ∧
      GuardedNoop w (Java_dev_onvoid_webrtc_media_audio_AudioProcessing_processStream E srcView
        dstView w src inputConfig outputConfig dest).2) ∧
    ((Java_dev_onvoid_webrtc_media_audio_AudioProcessing_processReverseStream E srcView dstView
        w src inputConfig outputConfig dest).1 = 0 ∧
      GuardedNoop w (Java_dev_onvoid_webrtc_media_audio_AudioProcessing_processReverseStream E
        srcView dstView w src inputConfig outputConfig dest).2) ∧
    GuardedNoop w (Java_dev_onvoid_webrtc_media_audio_AudioProcessing_dispose E w) ∧
    GuardedNoop w (Java_dev_onvoid_webrtc_media_audio_AudioProcessing_updateStats E w) := by
  have hg := guardedNoop_report w h
  refine ⟨?_, ⟨?_, ?_⟩, ⟨?_, ?_⟩, ?_, ?_⟩
  · simpa [Java_dev_onvoid_webrtc_media_audio_AudioProcessing_applyConfig, GetHandle, h]
      using hg
  · simp [Java_dev_onvoid_webrtc_media_audio_AudioProcessing_processStream, GetHandle, h]
  · simpa [Java_dev_onvoid_webrtc_media_audio_AudioProcessing_processStream, GetHandle, h]
      using hg
  · simp [Java_dev_onvoid_webrtc_media_audio_AudioProcessing_processReverseStream, GetHandle, h]
  · simpa [Java_dev_onvoid_webrtc_media_audio_AudioProcessing_processReverseStream, GetHandle,
      h] using hg
  · simpa [Java_dev_onvoid_webrtc_media_audio_AudioProcessing_dispose, GetHandle, h] using hg
  · simpa [Java_dev_onvoid_webrtc_media_audio_AudioProcessing_updateStats, GetHandle, h]
      using hg

/-- C2 at a concrete input: the never-initialized wrapper. -/
theorem null_handle_guarded_noop_witness :
    freshWorld.handle = 0 ∧
    (Java_dev_onvoid_webrtc_media_audio_AudioProcessing_processStream toyEngine (some true)
        (some true)
        freshWorld 1 mono16k mono16k 2).1 = 0 ∧
    (Java_dev_onvoid_webrtc_media_audio_AudioProcessing_processStream toyEngine (some true)
        (some true)
        freshWorld 1 mono16k mono16k 2).2.trace = [Event.invalidHandle] ∧
    GuardedNoop freshWorld
      (Java_dev_onvoid_webrtc_media_audio_AudioProcessing_dispose toyEngine freshWorld) :=
  have t := null_handle_guarded_noop toyEngine (some true) (some true) freshWorld
    { echoCanceller := true, noiseSuppression := false, gainControl := false, parameters := [] }
    1 2 mono16k mono16k rfl
  ⟨rfl, t.2.1.1, t.2.1.2.2.2.2.2.2.2.2, t.2.2.2.1⟩

/-! ## dispose and initialize -/

theorem dispose_trace (E : Engine σ) (w : World σ) (h : w.handle ≠ 0) :
    (Java_dev_onvoid_webrtc_media_audio_AudioProcessing_dispose E w).trace =
      w.trace ++ ([Event.engineRelease w.handle (E.Release w.engine w.handle).1] ++
        (if (E.Release w.engine w.handle).1 ≠ RefCountReleaseStatus.kDroppedLastRef then
          [Event.logWarning
            "Native object was not deleted. A reference is still around somewhere."]
         else []) ++ [Event.setHandle 0]) := by
  by_cases hs : (E.Release w.engine w.handle).1 = RefCountReleaseStatus.kDroppedLastRef <;>
    simp [Java_dev_onvoid_webrtc_media_audio_AudioProcessing_dispose, GetHandle, h, hs,
      SetHandle]

theorem dispose_handle (E : Engine σ) (w : World σ) :
    (Java_dev_onvoid_webrtc_media_audio_AudioProcessing_dispose E w).handle = 0 := by
  by_cases h : w.handle = 0
  · simp [Java_dev_onvoid_webrtc_media_audio_AudioProcessing_dispose, GetHandle, h,
      reportInvalidHandle]
  · simp [Java_dev_onvoid_webrtc_media_audio_AudioProcessing_dispose, GetHandle, h, SetHandle]

theorem dispose_fields (E : Engine σ) (w : World σ) (h : w.handle ≠ 0) :
    (Java_dev_onvoid_webrtc_media_audio_AudioProcessing_dispose E w).engine =
        (E.Release w.engine w.handle).2 ∧
      (Java_dev_onvoid_webrtc_media_audio_AudioProcessing_dispose E w).stats = w.stats ∧
      (Java_dev_onvoid_webrtc_media_audio_AudioProcessing_dispose E w).heap = w.heap ∧
      (Java_dev_onvoid_webrtc_media_audio_AudioProcessing_dispose E w).native = w.native ∧
      (Java_dev_onvoid_webrtc_media_audio_AudioProcessing_dispose E w).live = w.live ∧
      (Java_dev_onvoid_webrtc_media_audio_AudioProcessing_dispose E w).nextView = w.nextView := by
  by_cases hs : (E.Release w.engine w.handle).1 = RefCountReleaseStatus.kDroppedLastRef <;>
    simp [Java_dev_onvoid_webrtc_media_audio_AudioProcessing_dispose, GetHandle, h, hs,
      SetHandle]

/-- C3: on a wrapper with a non-null handle, `dispose` calls the engine's
`Release` exactly once: the events of the call are the `Release` on the
instance the handle refers to, the warning when the status is not "last
reference dropped", and the store of the null handle; the engine is left in
the state that one `Release` returned; nothing else changes. The handle is
null afterwards whatever status `Release` returns. A second `dispose` right
after is a guarded no-op: no engine call, handle still null, nothing but the
report of the invalid handle. -/
theorem dispose_releases_once_then_noop (E : Engine σ) (w : World σ) (h : w.handle ≠ 0) :
    newEvents w (Java_dev_onvoid_webrtc_media_audio_AudioProcessing_dispose E w) =
      [Event.engineRelease w.handle (E.Release w.engine w.handle).1] ++
        (if (E.Release w.engine w.handle).1 ≠ RefCountReleaseStatus.kDroppedLastRef then
          [Event.logWarning
            "Native object was not deleted. A reference is still around somewhere."]
         else []) ++ [Event.setHandle 0] ∧
    releasedInstances
        (newEvents w (Java_dev_onvoid_webrtc_media_audio_AudioProcessing_dispose E w)) =
      [w.handle] ∧
    (newEvents w (Java_dev_onvoid_webrtc_media_audio_AudioProcessing_dispose E w)).filter
        Event.isEngineCall =
      [Event.engineRelease w.handle (E.Release w.engine w.handle).1] ∧
    (Java_dev_onvoid_webrtc_media_audio_AudioProcessing_dispose E w).engine =
      (E.Release w.engine w.handle).2 ∧
    (Java_dev_onvoid_webrtc_media_audio_AudioProcessing_dispose E w).handle = 0 ∧
    ((Java_dev_onvoid_webrtc_media_audio_AudioProcessing_dispose E w).stats = w.stats ∧
      (Java_dev_onvoid_webrtc_media_audio_AudioProcessing_dispose E w).heap = w.heap ∧
      (Java_dev_onvoid_webrtc_media_audio_AudioProcessing_dispose E w).native = w.native ∧
      (Java_dev_onvoid_webrtc_media_audio_AudioProcessing_dispose E w).live = w.live ∧
      (Java_dev_onvoid_webrtc_media_audio_AudioProcessing_dispose E w).nextView = w.nextView) ∧
    GuardedNoop (Java_dev_onvoid_webrtc_media_audio_AudioProcessing_dispose E w)
      (Java_dev_onvoid_webrtc_media_audio_AudioProcessing_dispose E
        (Java_dev_onvoid_webrtc_media_audio_AudioProcessing_dispose E w)) := by
  have ht := newEvents_append w _ _ (dispose_trace E w h)
  have h0 := dispose_handle E w
  obtain ⟨he, hrest⟩ := dispose_fields E w h
  refine ⟨ht, ?_, ?_, he, h0, hrest, ?_⟩
  · rw [ht]
    by_cases hs : (E.Release w.engine w.handle).1 = RefCountReleaseStatus.kDroppedLastRef <;>
      simp [releasedInstances, hs]
  · rw [ht]
    by_cases hs : (E.Release w.engine w.handle).1 = RefCountReleaseStatus.kDroppedLastRef <;>
      simp [Event.isEngineCall, hs]
  · have hg := guardedNoop_report _ h0
    generalize Java_dev_onvoid_webrtc_media_audio_AudioProcessing_dispose E w = w1 at h0 hg ⊢
    simpa [Java_dev_onvoid_webrtc_media_audio_AudioProcessing_dispose, GetHandle, h0] using hg

/-- C3 at concrete inputs, with the engine that tallies the references given
back: on instance `1` it reports the last reference dropped, on instance `2`
other references; either way the call makes the one `Release`, the tally goes
from `1` to `2`, and the handle is cleared. -/
theorem dispose_releases_once_then_noop_witness :
    liveWorld.handle ≠ 0 ∧
    newEvents liveWorld
        (Java_dev_onvoid_webrtc_media_audio_AudioProcessing_dispose releaseTallyEngine
          liveWorld) =
      [Event.engineRelease 1 RefCountReleaseStatus.kDroppedLastRef, Event.setHandle 0] ∧
    (Java_dev_onvoid_webrtc_media_audio_AudioProcessing_dispose releaseTallyEngine
        liveWorld).engine = 2 ∧
    (Java_dev_onvoid_webrtc_media_audio_AudioProcessing_dispose releaseTallyEngine
        liveWorld).handle = 0 ∧
    (newEvents { liveWorld with handle := 2 }
        (Java_dev_onvoid_webrtc_media_audio_AudioProcessing_dispose releaseTallyEngine
          { liveWorld with handle := 2 })).filter Event.isEngineCall =
      [Event.engineRelease 2 RefCountReleaseStatus.kOtherRefsRemained] ∧
    (Java_dev_onvoid_webrtc_media_audio_AudioProcessing_dispose releaseTallyEngine
        { liveWorld with handle := 2 }).engine = 2 ∧
    (Java_dev_onvoid_webrtc_media_audio_AudioProcessing_dispose releaseTallyEngine
        { liveWorld with handle := 2 }).handle = 0 :=
  ⟨by decide,
   (dispose_releases_once_then_noop releaseTallyEngine liveWorld (by decide)).1,
   (dispose_releases_once_then_noop releaseTallyEngine liveWorld (by decide)).2.2.2.1,
   (dispose_releases_once_then_noop releaseTallyEngine liveWorld (by decide)).2.2.2.2.1,
   (dispose_releases_once_then_noop releaseTallyEngine { liveWorld with handle := 2 }
      (by decide)).2.2.1,
   (dispose_releases_once_then_noop releaseTallyEngine { liveWorld with handle := 2 }
      (by decide)).2.2.2.1,
   (dispose_releases_once_then_noop releaseTallyEngine { liveWorld with handle := 2 }
      (by decide)).2.2.2.2.1⟩

/-- C5: after `processStream` or `processReverseStream` on a wrapper with a
non-null handle, the caller-visible destination array holds exactly the bytes
the engine left behind the destination pointer (the array's bytes before the
call with the engine's stores applied), both when the runtime handed out a
private copy and when it handed out a direct view, and every other array is
untouched. Consequently, for a source of `N` frames with matching stream
configurations where the engine stores only within the first `N` frames of
the destination (`N * channels` samples of two bytes), every byte of the
destination past those samples keeps its value from before the call. -/
theorem dest_holds_engine_output (E : Engine σ) (srcCopy dstCopy : Bool) (w : World σ)
    (src dest : Nat) (inputConfig outputConfig : JavaStreamConfig) (N : Nat)
    (h : w.handle ≠ 0) :
    ((Java_dev_onvoid_webrtc_media_audio_AudioProcessing_processStream E (some srcCopy)
        (some dstCopy) w src
          inputConfig outputConfig dest).2.heap dest =
        storeBytes (w.heap dest)
          (E.ProcessStream w.engine w.handle (some (w.heap src))
            (jni_AudioProcessingStreamConfig_toNative inputConfig)
            (jni_AudioProcessingStreamConfig_toNative outputConfig) (some (w.heap dest))).2.1 ∧
      (∀ a, a ≠ dest →
        (Java_dev_onvoid_webrtc_media_audio_AudioProcessing_processStream E (some srcCopy)
            (some dstCopy) w
          src inputConfig outputConfig dest).2.heap a = w.heap a) ∧
      ((w.heap src).length = N * inputConfig.channels * 2 → inputConfig = outputConfig →
        (∀ s ∈ (E.ProcessStream w.engine w.handle (some (w.heap src))
            (jni_AudioProcessingStreamConfig_toNative inputConfig)
            (jni_AudioProcessingStreamConfig_toNative outputConfig) (some (w.heap dest))).2.1,
          s.1 < N * outputConfig.channels * 2) →
        ∀ i, N * outputConfig.channels * 2 ≤ i →
          ((Java_dev_onvoid_webrtc_media_audio_AudioProcessing_processStream E (some srcCopy)
              (some dstCopy)
            w src inputConfig outputConfig dest).2.heap dest)[i]? = (w.heap dest)[i]?)) ∧
    ((Java_dev_onvoid_webrtc_media_audio_AudioProcessing_processReverseStream E (some srcCopy)
        (some dstCopy)
          w src inputConfig outputConfig dest).2.heap dest =
        storeBytes (w.heap dest)
          (E.ProcessReverseStream w.engine w.handle (some (w.heap src))
            (jni_AudioProcessingStreamConfig_toNative inputConfig)
            (jni_AudioProcessingStreamConfig_toNative outputConfig) (some (w.heap dest))).2.1 ∧
      (∀ a, a ≠ dest →
        (Java_dev_onvoid_webrtc_media_audio_AudioProcessing_processReverseStream E (some srcCopy)
          (some dstCopy) w src inputConfig outputConfig dest).2.heap a = w.heap a) ∧
      ((w.heap src).length = N * inputConfig.channels * 2 → inputConfig = outputConfig →
        (∀ s ∈ (E.ProcessReverseStream w.engine w.handle (some (w.heap src))
            (jni_AudioProcessingStreamConfig_toNative inputConfig)
            (jni_AudioProcessingStreamConfig_toNative outputConfig) (some (w.heap dest))).2.1,
          s.1 < N * outputConfig.channels * 2) →
        ∀ i, N * outputConfig.channels * 2 ≤ i →
          ((Java_dev_onvoid_webrtc_media_audio_AudioProcessing_processReverseStream E (some srcCopy)
            (some dstCopy) w src inputConfig outputConfig dest).2.heap dest)[i]? =
            (w.heap dest)[i]?)) := by
  have h1 := processStream_heap E srcCopy dstCopy w src dest inputConfig outputConfig h
  have h2 := processReverseStream_heap E srcCopy dstCopy w src dest inputConfig outputConfig h
  refine ⟨⟨?_, ?_, ?_⟩, ⟨?_, ?_, ?_⟩⟩
  · rw [h1, Function.update_same]
  · intro a ha
    rw [h1, Function.update_noteq ha]
  · intro _ _ hst i hi
    rw [h1, Function.update_same]
    exact storeBytes_getElem?_of_not_stored _ _ i
      (fun s hs => Nat.ne_of_lt (Nat.lt_of_lt_of_le (hst s hs) hi))
  · rw [h2, Function.update_same]
  · intro a ha
    rw [h2, Function.update_noteq ha]
  · intro _ _ hst i hi
    rw [h2, Function.update_same]
    exact storeBytes_getElem?_of_not_stored _ _ i
      (fun s hs => Nat.ne_of_lt (Nat.lt_of_lt_of_le (hst s hs) hi))

/-- C5 at a concrete input: a source of two mono frames (four bytes), a
destination of six bytes handed out as a private copy; the toy engine stores
`7` in the first two bytes, the fourth byte on keeps its value (byte five is
still `9`). -/
theorem dest_holds_engine_output_witness :
    liveWorld.handle ≠ 0 ∧
    (Java_dev_onvoid_webrtc_media_audio_AudioProcessing_processStream toyEngine (some false)
        (some true)
        liveWorld 1 mono16k mono16k 2).2.heap 2 = [7, 7, 0, 0, 0, 9] ∧
    (∀ i, 2 * mono16k.channels * 2 ≤ i →
      ((Java_dev_onvoid_webrtc_media_audio_AudioProcessing_processStream toyEngine (some false)
          (some true)
        liveWorld 1 mono16k mono16k 2).2.heap 2)[i]? = (liveWorld.heap 2)[i]?) :=
  ⟨by decide,
   (dest_holds_engine_output toyEngine false true liveWorld 1 2 mono16k mono16k 2
      (by decide)).1.1,
   (dest_holds_engine_output toyEngine false true liveWorld 1 2 mono16k mono16k 2
      (by decide)).1.2.2 (by decide) rfl (by decide)⟩

/-! ## Buffer views -/

theorem updateStats_fields (E : Engine σ) (w : World σ) (h : w.handle ≠ 0) :
    (Java_dev_onvoid_webrtc_media_audio_AudioProcessing_updateStats E w).stats =
        (E.GetStatistics w.engine w.handle).1 ∧
      (Java_dev_onvoid_webrtc_media_audio_AudioProcessing_updateStats E w).engine =
        (E.GetStatistics w.engine w.handle).2 ∧
      (Java_dev_onvoid_webrtc_media_audio_AudioProcessing_updateStats E w).handle = w.handle ∧
      (Java_dev_onvoid_webrtc_media_audio_AudioProcessing_updateStats E w).heap = w.heap := by
  simp [Java_dev_onvoid_webrtc_media_audio_AudioProcessing_updateStats, GetHandle, h,
    jni_AudioProcessing_updateStats]

/-- C8: on a wrapper with a non-null handle, the statistics object after
`updateStats` is exactly the snapshot `GetStatistics` returns on the engine
state at the time of the call, whatever the object held before. So an
`updateStats` issued after an earlier `updateStats` and a `processStream` (or
`processReverseStream`) call holds the snapshot of the engine state that
processing call left, not the snapshot of the earlier `updateStats`. -/
theorem updateStats_is_current_snapshot (E : Engine σ) (srcCopy dstCopy : Bool)
    (w : World σ) (src dest : Nat) (inputConfig outputConfig : JavaStreamConfig)
    (h : w.handle ≠ 0) :
    (Java_dev_onvoid_webrtc_media_audio_AudioProcessing_updateStats E w).stats =
      (E.GetStatistics w.engine w.handle).1 ∧
    (Java_dev_onvoid_webrtc_media_audio_AudioProcessing_updateStats E
        (Java_dev_onvoid_webrtc_media_audio_AudioProcessing_processStream E (some srcCopy)
            (some dstCopy)
          (Java_dev_onvoid_webrtc_media_audio_AudioProcessing_updateStats E w)
          src inputConfig outputConfig dest).2).stats =
      (E.GetStatistics
        (E.ProcessStream (E.GetStatistics w.engine w.handle).2 w.handle (some (w.heap src))
          (jni_AudioProcessingStreamConfig_toNative inputConfig)
          (jni_AudioProcessingStreamConfig_toNative outputConfig) (some (w.heap dest))).2.2
        w.handle).1 ∧
    (Java_dev_onvoid_webrtc_media_audio_AudioProcessing_updateStats E
        (Java_dev_onvoid_webrtc_media_audio_AudioProcessing_processReverseStream E (some srcCopy)
          (some dstCopy) (Java_dev_onvoid_webrtc_media_audio_AudioProcessing_updateStats E w)
          src inputConfig outputConfig dest).2).stats =
      (E.GetStatistics
        (E.ProcessReverseStream (E.GetStatistics w.engine w.handle).2 w.handle (some (w.heap src))
          (jni_AudioProcessingStreamConfig_toNative inputConfig)
          (jni_AudioProcessingStreamConfig_toNative outputConfig) (some (w.heap dest))).2.2
        w.handle).1 := by
  obtain ⟨hs, he, hh, hp⟩ := updateStats_fields E w h
  have h1 : (Java_dev_onvoid_webrtc_media_audio_AudioProcessing_updateStats E w).handle ≠ 0 := by
    rw [hh]; exact h
  refine ⟨hs, ?_, ?_⟩
  · obtain ⟨pe, ph⟩ := processStream_engine E srcCopy dstCopy _ src dest inputConfig
      outputConfig h1
    have h2 : (Java_dev_onvoid_webrtc_media_audio_AudioProcessing_processStream E (some srcCopy)
        (some dstCopy) (Java_dev_onvoid_webrtc_media_audio_AudioProcessing_updateStats E w) src
        inputConfig outputConfig dest).2.handle ≠ 0 := by
      rw [ph]; exact h1
    rw [(updateStats_fields E _ h2).1, pe, ph, he, hh, hp]
  · obtain ⟨pe, ph⟩ := processReverseStream_engine E srcCopy dstCopy _ src dest inputConfig
      outputConfig h1
    have h2 : (Java_dev_onvoid_webrtc_media_audio_AudioProcessing_processReverseStream E
        (some srcCopy)
            (some dstCopy) (Java_dev_onvoid_webrtc_media_audio_AudioProcessing_updateStats E w)
        src inputConfig outputConfig dest).2.handle ≠ 0 := by
      rw [ph]; exact h1
    rw [(updateStats_fields E _ h2).1, pe, ph, he, hh, hp]

/-- C8 at a concrete input: the toy engine counts processing calls; the first
`updateStats` delivers `1`, the one after a `processStream` delivers `2`. -/
theorem updateStats_is_current_snapshot_witness :
    liveWorld.handle ≠ 0 ∧
    (Java_dev_onvoid_webrtc_media_audio_AudioProcessing_updateStats toyEngine liveWorld).stats =
      { counters := [1] } ∧
    (Java_dev_onvoid_webrtc_media_audio_AudioProcessing_updateStats toyEngine
        (Java_dev_onvoid_webrtc_media_audio_AudioProcessing_processStream toyEngine (some false)
            (some false)
          (Java_dev_onvoid_webrtc_media_audio_AudioProcessing_updateStats toyEngine liveWorld)
          1 mono16k mono16k 2).2).stats = { counters := [2] } :=
  ⟨by decide,
   (updateStats_is_current_snapshot toyEngine false false liveWorld 1 2 mono16k mono16k
      (by decide)).1,
   (updateStats_is_current_snapshot toyEngine false false liveWorld 1 2 mono16k mono16k
      (by decide)).2.1⟩

/-! ## No size check -/

/-- C10: `processStream` and `processReverseStream` do not relate the array
lengths to the stream configurations. On a wrapper with a non-null handle, for
arrays of any length and any pair of stream configurations, the views of `src`
and `dest` are obtained, the engine's processing routine is the one engine
call of the invocation, made once on those two views, the call returns the
engine's status, and nothing is reported or raised by the shim. -/
theorem no_size_check (E : Engine σ) (srcCopy dstCopy : Bool) (w : World σ)
    (src dest : Nat) (inputConfig outputConfig : JavaStreamConfig) (h : w.handle ≠ 0) :
    ((newEvents w
          (Java_dev_onvoid_webrtc_media_audio_AudioProcessing_processStream E (some srcCopy)
              (some dstCopy) w
            src inputConfig outputConfig dest).2).filter Event.isEngineCall =
        [Event.engineProcessStream w.handle (some w.nextView) (some (w.nextView + 1))] ∧
      obtainedViews (newEvents w
          (Java_dev_onvoid_webrtc_media_audio_AudioProcessing_processStream E (some srcCopy)
              (some dstCopy) w
            src inputConfig outputConfig dest).2) = [w.nextView, w.nextView + 1] ∧
      Event.getByteArrayElements src (some w.nextView) srcCopy ∈ newEvents w
          (Java_dev_onvoid_webrtc_media_audio_AudioProcessing_processStream E (some srcCopy)
              (some dstCopy) w
            src inputConfig outputConfig dest).2 ∧
      Event.getByteArrayElements dest (some (w.nextView + 1)) dstCopy ∈ newEvents w
          (Java_dev_onvoid_webrtc_media_audio_AudioProcessing_processStream E (some srcCopy)
              (some dstCopy) w
            src inputConfig outputConfig dest).2 ∧
      (Java_dev_onvoid_webrtc_media_audio_AudioProcessing_processStream E (some srcCopy)
          (some dstCopy) w src
          inputConfig outputConfig dest).1 =
        (E.ProcessStream w.engine w.handle (some (w.heap src))
          (jni_AudioProcessingStreamConfig_toNative inputConfig)
          (jni_AudioProcessingStreamConfig_toNative outputConfig) (some (w.heap dest))).1 ∧
      Event.invalidHandle ∉ newEvents w
          (Java_dev_onvoid_webrtc_media_audio_AudioProcessing_processStream E (some srcCopy)
              (some dstCopy) w
            src inputConfig outputConfig dest).2 ∧
      ∀ msg, Event.throwJavaError msg ∉ newEvents w
          (Java_dev_onvoid_webrtc_media_audio_AudioProcessing_processStream E (some srcCopy)
              (some dstCopy) w
            src inputConfig outputConfig dest).2) ∧
    ((newEvents w
          (Java_dev_onvoid_webrtc_media_audio_AudioProcessing_processReverseStream E (some srcCopy)
            (some dstCopy) w src inputConfig outputConfig dest).2).filter Event.isEngineCall =
        [Event.engineProcessReverseStream w.handle (some w.nextView) (some (w.nextView + 1))] ∧
      obtainedViews (newEvents w
          (Java_dev_onvoid_webrtc_media_audio_AudioProcessing_processReverseStream E (some srcCopy)
            (some dstCopy) w src inputConfig outputConfig dest).2) = [w.nextView, w.nextView + 1] ∧
      Event.getByteArrayElements src (some w.nextView) srcCopy ∈ newEvents w
          (Java_dev_onvoid_webrtc_media_audio_AudioProcessing_processReverseStream E (some srcCopy)
            (some dstCopy) w src inputConfig outputConfig dest).2 ∧
      Event.getByteArrayElements dest (some (w.nextView + 1)) dstCopy ∈ newEvents w
          (Java_dev_onvoid_webrtc_media_audio_AudioProcessing_processReverseStream E (some srcCopy)
            (some dstCopy) w src inputConfig outputConfig dest).2 ∧
      (Java_dev_onvoid_webrtc_media_audio_AudioProcessing_processReverseStream E (some srcCopy)
          (some dstCopy)
          w src inputConfig outputConfig dest).1 =
        (E.ProcessReverseStream w.engine w.handle (some (w.heap src))
          (jni_AudioProcessingStreamConfig_toNative inputConfig)
          (jni_AudioProcessingStreamConfig_toNative outputConfig) (some (w.heap dest))).1 ∧
      Event.invalidHandle ∉ newEvents w
          (Java_dev_onvoid_webrtc_media_audio_AudioProcessing_processReverseStream E (some srcCopy)
            (some dstCopy) w src inputConfig outputConfig dest).2 ∧
      ∀ msg, Event.throwJavaError msg ∉ newEvents w
          (Java_dev_onvoid_webrtc_media_audio_AudioProcessing_processReverseStream E (some srcCopy)
            (some dstCopy) w src inputConfig outputConfig dest).2) := by
  have e1 := newEvents_append w _ _
    (processStream_trace E srcCopy dstCopy w src dest inputConfig outputConfig h)
  have e2 := newEvents_append w _ _
    (processReverseStream_trace E srcCopy dstCopy w src dest inputConfig outputConfig h)
  have s1 := processStream_status E srcCopy dstCopy w src dest inputConfig outputConfig h
  have s2 := processReverseStream_status E srcCopy dstCopy w src dest inputConfig outputConfig h
  rw [e1, e2]
  refine ⟨⟨?_, ?_, ?_, ?_, s1, ?_, ?_⟩, ⟨?_, ?_, ?_, ?_, s2, ?_, ?_⟩⟩ <;>
    cases dstCopy <;> simp [Event.isEngineCall, obtainedViews]

/-- C10 at a concrete input: the destination is the empty array `3`, the
stream is stereo at 48 kHz, and the toy engine is still called, once, and its
status `4` returned. -/
theorem no_size_check_witness :
    liveWorld.handle ≠ 0 ∧ liveWorld.heap 3 = [] ∧
    (newEvents liveWorld
        (Java_dev_onvoid_webrtc_media_audio_AudioProcessing_processStream toyEngine (some false)
            (some true)
          liveWorld 1 { sampleRate := 48000, channels := 2 }
          { sampleRate := 48000, channels := 2 } 3).2).filter Event.isEngineCall =
      [Event.engineProcessStream 1 (some 0) (some 1)] ∧
    (Java_dev_onvoid_webrtc_media_audio_AudioProcessing_processStream toyEngine (some false)
        (some true)
        liveWorld 1 { sampleRate := 48000, channels := 2 }
        { sampleRate := 48000, channels := 2 } 3).1 = 4 :=
  ⟨by decide, by decide,
   (no_size_check toyEngine false true liveWorld 1 3 { sampleRate := 48000, channels := 2 }
      { sampleRate := 48000, channels := 2 } (by decide)).1.1,
   (no_size_check toyEngine false true liveWorld 1 3 { sampleRate := 48000, channels := 2 }
      { sampleRate := 48000, channels := 2 } (by decide)).1.2.2.2.2.1⟩

/-! ## One instance per wrapper -/

theorem outstanding_append (t u : List Event) :
    outstanding (t ++ u) = u.foldl outstandingStep (outstanding t) := by
  simp [outstanding, List.foldl_append]

theorem initialize_balanced (E : Engine σ) (w : World σ) (h0 : w.handle = 0)
    (hb : Balanced w) :
    Balanced ( Java_dev_onvoid_webrtc_media_audio_AudioProcessing_initialize E w) := by
  unfold Balanced at hb ⊢
  rw [h0] at hb
  simp only [if_true] at hb
  by_cases hp : (E.Create w.engine).1 = 0
  · simp [ Java_dev_onvoid_webrtc_media_audio_AudioProcessing_initialize, hp, h0,
      outstanding_append, hb, outstandingStep]
  · simp [ Java_dev_onvoid_webrtc_media_audio_AudioProcessing_initialize, hp, SetHandle,
      outstanding_append, hb, outstandingStep]

theorem dispose_balanced (E : Engine σ) (w : World σ) (hb : Balanced w) :
    Balanced (Java_dev_onvoid_webrtc_media_audio_AudioProcessing_dispose E w) := by
  unfold Balanced at hb ⊢
  rw [dispose_handle]
  by_cases h : w.handle = 0
  · rw [if_pos h] at hb
    simp [Java_dev_onvoid_webrtc_media_audio_AudioProcessing_dispose, GetHandle, h,
      reportInvalidHandle, outstanding_append, hb, outstandingStep]
  · rw [if_neg h] at hb
    rw [dispose_trace E w h]
    by_cases hs : (E.Release w.engine w.handle).1 = RefCountReleaseStatus.kDroppedLastRef <;>
      simp [outstanding_append, hb, outstandingStep, hs]

theorem lifecycleRun_balanced (E : Engine σ) (calls : List LifecycleCall) :
    ∀ w : World σ, Balanced w → initializeOnlyWhenNull E w calls = true →
      Balanced (lifecycleRun E w calls) := by
  induction calls with
  | nil => intro w hb _; exact hb
  | cons c cs ih =>
    intro w hb hi
    simp only [initializeOnlyWhenNull, Bool.and_eq_true, Bool.or_eq_true, bne_iff_ne, ne_eq,
      beq_iff_eq] at hi
    obtain ⟨hc, hrest⟩ := hi
    apply ih _ _ hrest
    cases c with
    | callInitialize =>
      have h0 : w.handle = 0 := by
        rcases hc with hc | hc
        · exact absurd rfl hc
        · exact hc
      exact initialize_balanced E w h0 hb
    | callDispose => exact dispose_balanced E w hb

/-- C7, as amended: across every sequence of initialize and dispose calls on a
fresh wrapper in which initialize is only issued while the handle is null, the
number of engine instances created by initialize whose reference dispose has
not released yet is at most one, it is one exactly when the handle is
non-null, and such an instance is the one the handle refers to. (The statement
covers every point of a sequence: each prefix of such a sequence is such a
sequence.) -/
theorem one_instance_per_wrapper (E : Engine σ) (w : World σ) (calls : List LifecycleCall)
    (hfresh : w.handle = 0) (htrace : w.trace = [])
    (hinit : initializeOnlyWhenNull E w calls = true) :
    (outstanding (lifecycleRun E w calls).trace).length ≤ 1 ∧
    ((outstanding (lifecycleRun E w calls).trace).length = 1 ↔
      (lifecycleRun E w calls).handle ≠ 0) ∧
    ∀ p ∈ outstanding (lifecycleRun E w calls).trace, p = (lifecycleRun E w calls).handle := by
  have hb : Balanced w := by
    unfold Balanced
    rw [htrace, hfresh]
    rfl
  have hr := lifecycleRun_balanced E calls w hb hinit
  unfold Balanced at hr
  rw [hr]
  by_cases h : (lifecycleRun E w calls).handle = 0 <;> simp [h]

/-- C7, amended, at a concrete input: initialize, dispose, dispose, initialize
on the never-initialized wrapper leaves exactly instance `2` outstanding, and
the handle refers to it. -/
theorem one_instance_per_wrapper_witness :
    freshWorld.handle = 0 ∧ freshWorld.trace = [] ∧
    initializeOnlyWhenNull toyEngine freshWorld
      [LifecycleCall.callInitialize, LifecycleCall.callDispose, LifecycleCall.callDispose,
       LifecycleCall.callInitialize] = true ∧
    (outstanding (lifecycleRun toyEngine freshWorld
      [LifecycleCall.callInitialize, LifecycleCall.callDispose, LifecycleCall.callDispose,
       LifecycleCall.callInitialize]).trace).length ≤ 1 ∧
    (lifecycleRun toyEngine freshWorld
      [LifecycleCall.callInitialize, LifecycleCall.callDispose, LifecycleCall.callDispose,
       LifecycleCall.callInitialize]).handle = 2 :=
  ⟨rfl, rfl, by decide,
   (one_instance_per_wrapper toyEngine freshWorld
      [LifecycleCall.callInitialize, LifecycleCall.callDispose, LifecycleCall.callDispose,
       LifecycleCall.callInitialize] rfl rfl (by decide)).1,
   by decide⟩

/-- C7 as stated fails: a second initialize on an initialized wrapper stores
the new instance over the handle without releasing the first one. After
initialize, initialize on the never-initialized wrapper two instances are
outstanding (`2` and `1`), the handle refers to `2`, and instance `1` is
unreleased and no longer referenced. -/
theorem second_initialize_leaks_instance :
    outstanding (lifecycleRun toyEngine freshWorld
      [LifecycleCall.callInitialize, LifecycleCall.callInitialize]).trace = [2, 1] ∧
    (lifecycleRun toyEngine freshWorld
      [LifecycleCall.callInitialize, LifecycleCall.callInitialize]).handle = 2 ∧
    ¬ ((outstanding (lifecycleRun toyEngine freshWorld
      [LifecycleCall.callInitialize, LifecycleCall.callInitialize]).trace).length ≤ 1) := by
  decide

/-! ## Concurrent dispose calls -/

theorem disposeStep_refines_dispose (E : Engine σ) (w : World σ) :
    disposeStep E
        (disposeStep E (disposeStep E w DisposePc.entry).1
          (disposeStep E w DisposePc.entry).2).1
        (disposeStep E (disposeStep E w DisposePc.entry).1
          (disposeStep E w DisposePc.entry).2).2 =
      (Java_dev_onvoid_webrtc_media_audio_AudioProcessing_dispose E w, DisposePc.returned) := by
  by_cases h : w.handle = 0
  · simp [disposeStep, Java_dev_onvoid_webrtc_media_audio_AudioProcessing_dispose, GetHandle, h]
  · simp [disposeStep, Java_dev_onvoid_webrtc_media_audio_AudioProcessing_dispose, GetHandle, h]

theorem mem_set_cases {α : Type} (l : List α) (i : Nat) (x a : α) (h : a ∈ l.set i x) :
    a = x ∨ a ∈ l.eraseIdx i := by
  induction l generalizing i with
  | nil => simp at h
  | cons y ys ih =>
    cases i with
    | zero =>
      simp only [List.set_cons_zero, List.mem_cons] at h
      simpa using h
    | succ j =>
      simp only [List.set_cons_succ, List.mem_cons] at h
      rcases h with h | h
      · right; simp [h]
      · rcases ih j h with h | h
        · left; exact h
        · right; simp [h]

theorem mem_cases_of_getElem? {α : Type} (l : List α) (i : Nat) (x a : α)
    (hi : l[i]? = some x) (h : a ∈ l) : a = x ∨ a ∈ l.eraseIdx i := by
  induction l generalizing i with
  | nil => simp at h
  | cons y ys ih =>
    cases i with
    | zero =>
      simp only [List.getElem?_cons_zero, Option.some.injEq] at hi
      simp only [List.mem_cons] at h
      simpa [hi] using h
    | succ j =>
      simp only [List.getElem?_cons_succ] at hi
      simp only [List.mem_cons] at h
      rcases h with h | h
      · right; simp [h]
      · rcases ih j hi h with h | h
        · left; exact h
        · right; simp [h]

theorem mem_set_self_of_getElem? {α : Type} (l : List α) (i : Nat) (x y : α)
    (hi : l[i]? = some y) : x ∈ l.set i x := by
  induction l generalizing i with
  | nil => simp at hi
  | cons z zs ih =>
    cases i with
    | zero => simp
    | succ j =>
      simp only [List.getElem?_cons_succ] at hi
      simp [ih j hi]

theorem releasedInstances_append (t u : List Event) :
    releasedInstances (t ++ u) = releasedInstances t ++ releasedInstances u := by
  simp [releasedInstances, List.filterMap_append]

theorem droppedLastCount_le (t : List Event) :
    droppedLastCount t ≤ (releasedInstances t).length := by
  induction t with
  | nil => simp [droppedLastCount, releasedInstances]
  | cons e es ih =>
    unfold droppedLastCount releasedInstances at ih ⊢
    cases e with
    | engineRelease p st => cases st <;> simp [List.countP_cons] <;> omega
    | _ => simpa [List.countP_cons] using ih

theorem raceInv_init (n : Nat) (held : Bool) : RaceInv (raceInit n held) := by
  unfold RaceInv
  refine ⟨rfl, ?_, ?_, ?_, ?_⟩
  · cases held <;> simp [raceInit]
  · intro a ha
    simp [raceInit, List.mem_replicate] at ha
  · intro a ha
    simp [raceInit, List.mem_replicate] at ha
  · intro _
    left
    cases held <;> simp [raceInit, releasedInstances, RaceState.holderRefs]

theorem raceInv_holderRelease (s : RaceState) (h : RaceInv s) :
    RaceInv (raceStep true s Actor.holderRelease) := by
  unfold raceStep
  cases hh : s.holder with
  | none => simpa using h
  | some p =>
    obtain ⟨hf, hhold, hb, hc, hd⟩ := h
    have hp : p = 1 := by
      rcases hhold with h1 | h1
      · rw [hh] at h1; cases h1
      · rw [hh] at h1; cases h1; rfl
    subst hp
    have hr : s.holderRefs = 1 := by simp [RaceState.holderRefs, hh]
    simp only
    refine ⟨hf, Or.inl rfl, ?_, ?_, ?_⟩
    · intro a ha
      obtain ⟨h1, h2, h3, h4⟩ := hb a ha
      refine ⟨h1, h2, h3, ?_⟩
      rw [hr] at h4
      simp [refCountedEngine, RaceState.holderRefs, h4]
    · intro a ha
      obtain ⟨h2, h3, h4⟩ := hc a ha
      refine ⟨h2, h3, ?_⟩
      rw [hr] at h4
      simp [refCountedEngine, RaceState.holderRefs, h4]
    · intro hidle
      rcases hd hidle with ⟨h2, h3, h4⟩ | ⟨h2, h3, h4⟩
      · left
        refine ⟨h2, h3, ?_⟩
        rw [hr] at h4
        simp [refCountedEngine, RaceState.holderRefs, h4]
      · right
        refine ⟨h2, h3, ?_⟩
        rw [hr] at h4
        simp [refCountedEngine, RaceState.holderRefs, h4]

theorem raceInv_of_step (s s' : RaceState) (i : Nat) (pc pc' : DisposePc)
    (hp : s.pcs[i]? = some pc) (hoth : ∀ a ∈ s.pcs.eraseIdx i, a.isMid = false)
    (hpcs : s'.pcs = s.pcs.set i pc') (hf : s'.releasedFreed = 0)
    (hhold : s'.holder = none ∨ s'.holder = some 1)
    (hb : ∀ a, pc' = DisposePc.checked a →
      a = 1 ∧ s'.world.handle = 1 ∧ releasedInstances s'.world.trace = [] ∧
        s'.world.engine.refs 1 = 1 + s'.holderRefs)
    (hc : ∀ a, pc' = DisposePc.released a →
      s'.world.handle = 1 ∧ (releasedInstances s'.world.trace).length = 1 ∧
        s'.world.engine.refs 1 = s'.holderRefs)
    (hd : pc'.isMid = false →
      (s'.world.handle = 1 ∧ releasedInstances s'.world.trace = [] ∧
          s'.world.engine.refs 1 = 1 + s'.holderRefs) ∨
        (s'.world.handle = 0 ∧ (releasedInstances s'.world.trace).length ≤ 1 ∧
          s'.world.engine.refs 1 = s'.holderRefs)) :
    RaceInv s' := by
  refine ⟨hf, hhold, ?_, ?_, ?_⟩
  · intro a ha
    rw [hpcs] at ha
    rcases mem_set_cases _ _ _ _ ha with h | h
    · exact hb a h.symm
    · have := hoth _ h
      simp [DisposePc.isMid] at this
  · intro a ha
    rw [hpcs] at ha
    rcases mem_set_cases _ _ _ _ ha with h | h
    · exact hc a h.symm
    · have := hoth _ h
      simp [DisposePc.isMid] at this
  · intro hall
    apply hd
    apply hall
    rw [hpcs]
    exact mem_set_self_of_getElem? _ _ _ _ hp

theorem raceInv_disposeCall (s : RaceState) (i : Nat) (h : RaceInv s) :
    RaceInv (raceStep true s (Actor.disposeCall i)) := by
  cases hp : s.pcs[i]? with
  | none =>
    simp only [raceStep, hp]
    exact h
  | some pc =>
    simp only [raceStep, hp]
    by_cases hidle : othersIdle s.pcs i = true
    · have hoth : ∀ a ∈ s.pcs.eraseIdx i, a.isMid = false := by
        simpa [othersIdle, List.all_eq_true] using hidle
      obtain ⟨hf, hhold, hb, hc, hd⟩ := h
      have hmem : pc ∈ s.pcs := List.getElem?_mem hp
      simp only [hidle, Bool.not_true, Bool.and_false, Bool.false_eq_true, if_false]
      clear hidle
      cases pc with
      | entry =>
        have hall : ∀ a ∈ s.pcs, a.isMid = false := by
          intro a ha
          rcases mem_cases_of_getElem? _ _ _ _ hp ha with h | h
          · subst h; rfl
          · exact hoth _ h
        rcases hd hall with ⟨h2, h3, h4⟩ | ⟨h2, h3, h4⟩
        · apply raceInv_of_step s _ i _ (DisposePc.checked 1) hp hoth
          · simp [disposeStep, GetHandle, h2]
          · simpa using hf
          · simpa using hhold
          · intro a ha
            simp only [DisposePc.checked.injEq] at ha
            subst ha
            simpa [disposeStep, GetHandle, h2, RaceState.holderRefs] using ⟨h3, h4⟩
          · intro a ha
            cases ha
          · intro hm
            simp [DisposePc.isMid] at hm
        · apply raceInv_of_step s _ i _ DisposePc.returned hp hoth
          · simp [disposeStep, GetHandle, h2]
          · simpa using hf
          · simpa using hhold
          · intro a ha
            cases ha
          · intro a ha
            cases ha
          · intro _
            right
            simpa [disposeStep, GetHandle, h2, reportInvalidHandle, releasedInstances_append,
              releasedInstances, RaceState.holderRefs] using ⟨h3, h4⟩
      | checked a =>
        obtain ⟨h1, h2, h3, h4⟩ := hb a hmem
        subst h1
        apply raceInv_of_step s _ i _ (DisposePc.released 1) hp hoth
        · simp [disposeStep]
        · simpa [h4] using hf
        · simpa using hhold
        · intro a ha
          cases ha
        · intro a _
          by_cases hs : (refCountedEngine.Release s.world.engine 1).1 =
              RefCountReleaseStatus.kDroppedLastRef <;>
            simp [disposeStep, hs, releasedInstances_append, h3, h2] <;>
            simp [releasedInstances, refCountedEngine, h4, RaceState.holderRefs]
        · intro hm
          simp [DisposePc.isMid] at hm
      | released a =>
        obtain ⟨h2, h3, h4⟩ := hc a hmem
        apply raceInv_of_step s _ i _ DisposePc.returned hp hoth
        · simp [disposeStep]
        · simpa using hf
        · simpa using hhold
        · intro a ha
          cases ha
        · intro a ha
          cases ha
        · intro _
          right
          have e : releasedInstances [Event.setHandle 0] = [] := rfl
          refine ⟨?_, ?_, ?_⟩
          · simp [disposeStep, SetHandle]
          · simp [disposeStep, SetHandle, releasedInstances_append, h3, e]
          · simpa [disposeStep, SetHandle, RaceState.holderRefs] using h4
      | returned =>
        have hall : ∀ a ∈ s.pcs, a.isMid = false := by
          intro a ha
          rcases mem_cases_of_getElem? _ _ _ _ hp ha with h | h
          · subst h; rfl
          · exact hoth _ h
        apply raceInv_of_step s _ i _ DisposePc.returned hp hoth
        · simp [disposeStep]
        · simpa using hf
        · simpa using hhold
        · intro a ha
          cases ha
        · intro a ha
          cases ha
        · intro _
          simpa [disposeStep, RaceState.holderRefs] using hd hall
    · simp only [Bool.not_eq_true] at hidle
      simpa [hidle] using ⟨h.1, h.2⟩

theorem raceStep_inv (s : RaceState) (a : Actor) (h : RaceInv s) :
    RaceInv (raceStep true s a) := by
  cases a with
  | disposeCall i => exact raceInv_disposeCall s i h
  | holderRelease => exact raceInv_holderRelease s h

theorem raceRun_inv (schedule : List Actor) :
    ∀ s : RaceState, RaceInv s → RaceInv (raceRun true s schedule) := by
  induction schedule with
  | nil => intro s h; exact h
  | cons a rest ih => intro s h; exact ih _ (raceStep_inv s a h)

theorem raceInv_safe (s : RaceState) (h : RaceInv s) : RaceSafe s := by
  obtain ⟨hf, _, hb, hc, hd⟩ := h
  refine ⟨Nat.le_trans (droppedLastCount_le _) ?_, hf⟩
  by_cases hall : ∀ pc ∈ s.pcs, pc.isMid = false
  · rcases hd hall with ⟨_, h3, _⟩ | ⟨_, h3, _⟩
    · simp [h3]
    · exact h3
  · simp only [not_forall] at hall
    obtain ⟨pc, hmem, hmid⟩ := hall
    cases pc with
    | entry => simp [DisposePc.isMid] at hmid
    | returned => simp [DisposePc.isMid] at hmid
    | checked a => simp [(hb a hmem).2.2.1]
    | released a => exact Nat.le_of_eq (hc a hmem).2.1

/-- C9, as amended: when the dispose calls on a wrapper exclude one another (no
dispose call moves while another is between its handle read and its return),
then for any number of dispose calls and every interleaving of their steps
with the release of an external holder (present or not), the instance is never
freed twice: at most one dispose call sees "last reference dropped", and no
dispose call calls `Release` on an instance that is already freed. -/
theorem exclusive_dispose_never_double_frees (n : Nat) (held : Bool)
    (schedule : List Actor) :
    RaceSafe (raceRun true (raceInit n held) schedule) :=
  raceInv_safe _ (raceRun_inv schedule _ (raceInv_init n held))

/-- C9, amended, at a concrete schedule: two dispose calls and the holder; the
first call runs to its end after the holder let go and sees the last reference
dropped, the second finds the handle null. -/
theorem exclusive_dispose_never_double_frees_witness :
    RaceSafe (raceRun true (raceInit 2 true)
      [Actor.disposeCall 0, Actor.disposeCall 1, Actor.holderRelease, Actor.disposeCall 0,
       Actor.disposeCall 1, Actor.disposeCall 0, Actor.disposeCall 1]) ∧
    (raceRun true (raceInit 2 true)
      [Actor.disposeCall 0, Actor.disposeCall 1, Actor.holderRelease, Actor.disposeCall 0,
       Actor.disposeCall 1, Actor.disposeCall 0, Actor.disposeCall 1]).world.trace =
      [Event.engineRelease 1 RefCountReleaseStatus.kDroppedLastRef, Event.setHandle 0,
       Event.invalidHandle] :=
  ⟨exclusive_dispose_never_double_frees 2 true _, by decide⟩

/-- C9 as stated fails: the shim takes no lock, so two dispose calls may both
read the handle before either clears it. In this interleaving the holder lets
go, both calls read the handle and pass the null check, the first call's
`Release` drops the last reference (the instance is freed), and the second
call then calls `Release` on the freed instance. -/
theorem concurrent_dispose_releases_freed_instance :
    (raceRun false (raceInit 2 true)
      [Actor.holderRelease, Actor.disposeCall 0, Actor.disposeCall 1, Actor.disposeCall 0,
       Actor.disposeCall 1]).releasedFreed = 1 ∧
    releasedInstances (raceRun false (raceInit 2 true)
      [Actor.holderRelease, Actor.disposeCall 0, Actor.disposeCall 1, Actor.disposeCall 0,
       Actor.disposeCall 1]).world.trace = [1, 1] ∧
    ¬ RaceSafe (raceRun false (raceInit 2 true)
      [Actor.holderRelease, Actor.disposeCall 0, Actor.disposeCall 1, Actor.disposeCall 0,
       Actor.disposeCall 1]) := by
  unfold RaceSafe
  decide

end WebrtcJni
